import Mathlib

/-!
Verification of the IPTV playlist checker (src/iptvcheck.py) against its
natural-language specification.

The program is shallowly embedded: Python strings are modelled as `List Char`
(`Line`), Python dicts as ordered association lists with Python's
insertion/update semantics, and the module-level mutable state (`cache`,
`stats`) as explicit state records threaded through the model.  Each
definition is a direct transcription of the corresponding Python function;
slice indices, branch order and guard structure follow the source line by
line (including its off-by-N slice indices, which are transcribed, not
repaired).
-/

namespace IPTVCheck

/-- Lines and string values are modelled as lists of characters
(a faithful rendering of Python `str` for the ASCII data this program
manipulates). -/
abbrev Line := List Char

/-- Shorthand turning a Lean string literal into the `List Char` model. -/
def S (s : String) : Line := s.data

/-- Model of Python `str.strip()`: drop whitespace from both ends. -/
def stripC (l : Line) : Line :=
  ((l.dropWhile Char.isWhitespace).reverse.dropWhile Char.isWhitespace).reverse

/-- Model of Python `str.lower()` (ASCII case folding). -/
def lowerC (l : Line) : Line := l.map Char.toLower

/-- Model of Python `str.capitalize()`: first character upper-cased, the
rest lower-cased. -/
def capitalizeC : Line → Line
  | [] => []
  | c :: cs => c.toUpper :: cs.map Char.toLower

/-- Model of Python `str.find(pat)`: index of the first occurrence of
`pat`, or `none` for Python's `-1`. -/
def findSubstr (pat : Line) : Line → Option Nat
  | [] => if pat.isPrefixOf ([] : Line) then some 0 else none
  | c :: t =>
    if pat.isPrefixOf (c :: t) then some 0
    else (findSubstr pat t).map (fun i => i + 1)

/-- Model of Python's substring test `pat in s`. -/
def pyIn (pat s : Line) : Bool := (findSubstr pat s).isSome

/-- Model of Python `str.find(ch, start)`: absolute index of the first
occurrence of the character at or after `start`. -/
def findCharFrom (l : Line) (c : Char) (start : Nat) : Option Nat :=
  (findSubstr [c] (l.drop start)).map (fun i => start + i)

/-- Model of Python `str.split(sep, 1)`: the part before the first
separator, and the part after it when the separator occurs. -/
def splitOnce (sep : Char) : Line → Line × Option Line
  | [] => ([], none)
  | c :: t =>
    if c == sep then ([], some t)
    else
      let r := splitOnce sep t
      (c :: r.1, r.2)

/-- Model of Python `str.split(sep)` (full split on a one-character
separator; `"".split(sep) = [""]`). -/
def splitAllOn (sep : Char) : Line → List Line
  | [] => [[]]
  | c :: t =>
    if c == sep then [] :: splitAllOn sep t
    else
      match splitAllOn sep t with
      | [] => [[c]]
      | h :: r => (c :: h) :: r

/-- Model of Python `str.replace(pat, "")`: remove every (left-most,
non-overlapping) occurrence of `pat`. -/
def removeAll (pat : Line) : Line → Line
  | [] => []
  | c :: t =>
    if pat.isPrefixOf (c :: t) && !pat.isEmpty then
      removeAll pat (t.drop (pat.length - 1))
    else c :: removeAll pat t
termination_by l => l.length
decreasing_by
  · simp only [List.length_drop, List.length_cons]
    omega
  · simp

/-- Model of the source's Title-Case reformatting
`'-'.join(word.capitalize() for word in key.split('-'))`. -/
def titleCase (k : Line) : Line :=
  List.intercalate (S "-") ((splitAllOn '-' k).map capitalizeC)

/-- Python-dict assignment `m[k] = v` on an ordered association list:
an existing key keeps its position and gets the new value, a fresh key is
appended at the end (CPython 3.7+ insertion-order semantics). -/
def dictSet (m : List (Line × Line)) (k v : Line) : List (Line × Line) :=
  if m.any (fun p => p.1 == k) then
    m.map (fun p => if p.1 == k then (p.1, v) else p)
  else m ++ [(k, v)]

/-! ## Playlist parser (src/iptvcheck.py, `parse_playlist`, lines 106–139) -/

/-- One parsed playlist item, as built by `parse_playlist`
(Python dict with keys `extinf`, `url`, `options`). -/
structure Channel where
  extinf : Line
  url : Option Line
  options : List Line
deriving Repr, DecidableEq

/-- URL recognition of `parse_playlist` (line 132): the six scheme
prefixes accepted by the parser. -/
def isUrlLine (s : Line) : Bool :=
  (S "http://").isPrefixOf s || (S "https://").isPrefixOf s ||
  (S "rtmp://").isPrefixOf s || (S "rtsp://").isPrefixOf s ||
  (S "mms://").isPrefixOf s || (S "udp://").isPrefixOf s

/-- Directive recognition of `parse_playlist` (line 127). -/
def isOptionLine (s : Line) : Bool :=
  (S "#EXTVLCOPT:").isPrefixOf s || (S "#KODIPROP:").isPrefixOf s ||
  (S "#EXTGRP:").isPrefixOf s || (S "#EXTLOGO:").isPrefixOf s

/-- How `parse_playlist` treats one (already stripped) line. -/
inductive LineKind
  | skipLine
  | extinfLine
  | optLine
  | urlLine
deriving Repr, DecidableEq

/-- Line classification mirroring the `if`/`elif` chain of
`parse_playlist` (lines 115–136): blank lines and the bare header marker
are ignored, then info-marker, directive and URL lines are recognized;
anything else is ignored. -/
def classifyLine (s : Line) : LineKind :=
  if s.isEmpty || s == S "#EXTM3U" then .skipLine
  else if (S "#EXTINF:").isPrefixOf s then .extinfLine
  else if isOptionLine s then .optLine
  else if isUrlLine s then .urlLine
  else .skipLine

/-- State-passing rendering of the parser loop.  The Python loop appends
the freshly opened channel dict to `channels` immediately and keeps
mutating it through the shared reference; here the currently open channel
is kept separate and emitted when the next info line opens a new one (or
at end of input), which produces the same list. -/
def parseLinesAux : List Line → Option Channel → List Channel
  | [], cur => cur.toList
  | l :: ls, cur =>
    let s := stripC l
    match classifyLine s with
    | .skipLine => parseLinesAux ls cur
    | .extinfLine => cur.toList ++ parseLinesAux ls (some ⟨s, none, []⟩)
    | .optLine =>
      match cur with
      | some c => parseLinesAux ls (some ⟨c.extinf, c.url, c.options ++ [s]⟩)
      | none => parseLinesAux ls none
    | .urlLine =>
      match cur with
      | some c => parseLinesAux ls (some ⟨c.extinf, some s, c.options⟩)
      | none => parseLinesAux ls none

/-- The final filter of `parse_playlist` (line 139): Python's truthiness
test `if ch['url']` keeps a channel whose url is set and non-empty. -/
def keepChannel (c : Channel) : Bool :=
  match c.url with
  | some u => !u.isEmpty
  | none => false

/-- Parser on a list of raw lines. -/
def parseLines (lines : List Line) : List Channel :=
  (parseLinesAux lines none).filter keepChannel

/-- Model of `parse_playlist` on raw text (`content.splitlines()` is
rendered as splitting on the newline character; the per-line
`str.strip()` of the loop removes any residual carriage returns). -/
def parse_playlist (content : Line) : List Channel :=
  parseLines (splitAllOn '\n' content)

example : parseLines [S "#EXTINF:-1,A", S "http://x/a"] =
    [⟨S "#EXTINF:-1,A", some (S "http://x/a"), []⟩] := by decide

example : parseLines [S "#EXTINF:-1,A", S "#EXTGRP:news"] = [] := by decide

example : parse_playlist (S "#EXTM3U\n#EXTINF:-1,A\n\nhttp://x/a") =
    [⟨S "#EXTINF:-1,A", some (S "http://x/a"), []⟩] := by decide

/-! ## Header extractor (src/iptvcheck.py, `extract_headers_from_options`,
lines 447–583)

Every branch of the Python function performs a sequence of
`headers[key] = value` assignments whose keys and values are computed from
the option line alone (never from the `headers` dict).  The transcription
therefore renders one branch as the ordered list of (key, value) pairs it
assigns (`headerContribs`), and applies them to the dict with Python's
assignment semantics (`stepHeaders`).  Slice offsets are copied verbatim
from the source (`option[27:]`, `option[25:]`, `option[21:]`,
`option[22:]`, `option[11:]`, `option[43:]`, `option[10:]`). -/

/-- Value extraction for an attribute embedded in an info line
(lines 533–543 and the analogous referrer/origin blocks): a value starting
with a double quote ends at the matching quote (and is dropped entirely if
the quote is unmatched), otherwise it ends at the first space if a space
occurs, otherwise at the first comma if a comma occurs, otherwise it is the
whole remainder. -/
def attrValue (part : Line) : Option Line :=
  if (S "\"").isPrefixOf part then
    match findCharFrom part '\"' 1 with
    | some e => if 0 < e then some ((part.drop 1).take (e - 1)) else none
    | none => none
  else if part.contains ' ' then some (splitOnce ' ' part).1
  else if part.contains ',' then some (splitOnce ',' part).1
  else some part

/-- One embedded info-line attribute (`keyword` is searched in the
lower-cased line, the value is cut from the original line at the found
index, and the hit is used only when the index is positive, mirroring
`if ua_start > 0`). -/
def extinfAttr (o lower keyword canon : Line) : List (Line × Line) :=
  match findSubstr keyword lower with
  | some i =>
    if 0 < i then
      match attrValue (o.drop (i + keyword.length)) with
      | some v => [(canon, v)]
      | none => []
    else []
  | none => []

/-- Assignments of the info-line branch (lines 527–577): User-Agent,
then Referer (keyword `referrer=` preferred over `referer=`), then
Origin. -/
def extinfContribs (o : Line) : List (Line × Line) :=
  let lower := lowerC o
  let ua := extinfAttr o lower (S "user-agent=") (S "User-Agent")
  let ref :=
    if pyIn (S "referrer=") lower || pyIn (S "referer=") lower then
      let kw := if pyIn (S "referrer=") lower then S "referrer=" else S "referer="
      extinfAttr o lower kw (S "Referer")
    else []
  let org := extinfAttr o lower (S "origin=") (S "Origin")
  ua ++ ref ++ org

/-- Assignments of one `&`-separated pair of the
`#KODIPROP:inputstream.adaptive.stream_headers=` branch (lines 488–502);
a pair without `=` is skipped. -/
def kodiPairContrib (pair : Line) : List (Line × Line) :=
  match splitOnce '=' pair with
  | (k, some v) =>
    let key := stripC k
    if lowerC key == S "user-agent" then [(S "User-Agent", stripC v)]
    else if lowerC key == S "referer" || lowerC key == S "referrer" then
      [(S "Referer", stripC v)]
    else if lowerC key == S "origin" then [(S "Origin", stripC v)]
    else [(titleCase key, stripC v)]
  | (_, none) => []

/-- Assignments of the generic `#KODIPROP:` branch (lines 505–524);
the Python guard `'=' in option` together with `option[10:].split('=', 1)`
is rendered as splitting `option[10:]` at the first `=` (the prefix
`#KODIPROP:` contains no `=`, so the two guards agree). -/
def kodiGenericContrib (o : Line) : List (Line × Line) :=
  match splitOnce '=' (o.drop 10) with
  | (p, some v) =>
    let prop := lowerC (stripC p)
    let value := stripC v
    if prop == S "user-agent" then [(S "User-Agent", value)]
    else if prop == S "referer" || prop == S "referrer" then [(S "Referer", value)]
    else if prop == S "origin" then [(S "Origin", value)]
    else if (S ".useragent").isSuffixOf prop then [(S "User-Agent", value)]
    else if prop == S "http-user-agent" then [(S "User-Agent", value)]
    else if prop == S "http-referrer" || prop == S "http-referer" then
      [(S "Referer", value)]
    else if prop == S "http-origin" then [(S "Origin", value)]
    else []
  | (_, none) => []

/-- Assignments of the generic `#EXTVLCOPT:` branch (lines 467–483):
`option[11:]` stripped, the `http-` prefix required, the key taken before
the first `=` with every `http-` occurrence removed, mapped to a canonical
name or Title-Cased. -/
def vlcGenericContrib (o : Line) : List (Line × Line) :=
  let ov := stripC (o.drop 11)
  if (S "http-").isPrefixOf ov then
    match splitOnce '=' ov with
    | (k, some v) =>
      let rawName := removeAll (S "http-") k
      let name :=
        if lowerC rawName == S "user-agent" then S "User-Agent"
        else if lowerC rawName == S "referrer" then S "Referer"
        else if lowerC rawName == S "origin" then S "Origin"
        else titleCase rawName
      [(name, stripC v)]
    | (_, none) => []
  else []

/-- Ordered (key, value) assignments performed by the body of the option
loop of `extract_headers_from_options` for one option line, following the
source's `if`/`elif` chain (lines 451–577) branch for branch. -/
def headerContribs (o : Line) : List (Line × Line) :=
  if (S "#EXTVLCOPT:http-user-agent=").isPrefixOf o then
    [(S "User-Agent", stripC (o.drop 27))]
  else if (S "#EXTVLCOPT:http-referrer=").isPrefixOf o then
    [(S "Referer", stripC (o.drop 25))]
  else if (S "#EXTVLCOPT:http-origin=").isPrefixOf o then
    [(S "Origin", stripC (o.drop 21))]
  else if (S "#EXTVLCOPT:http-header=").isPrefixOf o then
    let headerLine := stripC (o.drop 22)
    match splitOnce ':' headerLine with
    | (k, some v) => [(stripC k, stripC v)]
    | (_, none) => []
  else if (S "#EXTVLCOPT:").isPrefixOf o then vlcGenericContrib o
  else if (S "#KODIPROP:inputstream.adaptive.stream_headers=").isPrefixOf o then
    ((splitAllOn '&' (stripC (o.drop 43))).map kodiPairContrib).flatten
  else if (S "#KODIPROP:").isPrefixOf o then kodiGenericContrib o
  else if (S "#EXTINF:").isPrefixOf o then extinfContribs o
  else []

/-- Processing of one option line: apply its assignments to the headers
dict in order. -/
def stepHeaders (m : List (Line × Line)) (o : Line) : List (Line × Line) :=
  (headerContribs o).foldl (fun acc kv => dictSet acc kv.1 kv.2) m

/-- Model of `extract_headers_from_options`: fold the option list over an
initially empty headers dict. -/
def extract_headers_from_options (options : List Line) : List (Line × Line) :=
  options.foldl stepHeaders []

example : extract_headers_from_options [S "#EXTVLCOPT:http-user-agent=Foo/1.0"] =
    [(S "User-Agent", S "Foo/1.0")] := by decide

example : extract_headers_from_options [S "#EXTVLCOPT:http-referrer=http://r/"] =
    [(S "Referer", S "http://r/")] := by decide

/-! ## Failure-reason classification (src/iptvcheck.py, lines 274–295 of
`check_stream`, and `simplify_error`, lines 322–331) -/

/-- Classification of the decode probe's diagnostic output on the final
failed attempt: the source initializes `error_reason` to
"Stream does not work" and reassigns it through an `if`/`elif` chain of
substring tests, equivalent to this `if`/`else` cascade. -/
def classify_stream_error (e : Line) : Line :=
  if pyIn (S "403 Forbidden") e then S "Access forbidden (403)"
  else if pyIn (S "404 Not Found") e then S "Stream not found (404)"
  else if pyIn (S "401 Unauthorized") e then S "Authentication required (401)"
  else if pyIn (S "Protocol not found") e then S "Protocol not supported"
  else if pyIn (S "Connection refused") e then S "Connection refused"
  else if pyIn (S "Unable to open resource") e then S "Unable to open resource"
  else S "Stream does not work"

/-- The `error_map` dict literal of `simplify_error` in its insertion
order (CPython dicts iterate in insertion order). -/
def errorMap : List (Line × Line) :=
  [(S "No connection adapters", S "No connection!"),
   (S "Timeout", S "Request timeout"),
   (S "403 Forbidden", S "Access forbidden (403)")]

/-- The lookup loop of `simplify_error`: first matching substring wins. -/
def errorMapScan : List (Line × Line) → Line → Line
  | [], _ => S "Request error"
  | p :: ps, msg => if pyIn p.1 msg then p.2 else errorMapScan ps msg

/-- Model of `simplify_error`: map a request-layer exception message
through `errorMap`, falling back to "Request error". -/
def simplify_error (msg : Line) : Line := errorMapScan errorMap msg

/-! ## Validator and statistics model (src/iptvcheck.py, `check_stream`,
lines 142–320, with the module state `cache` (line 103) and `stats`
(line 67))

The external probing stages of an attempt (HTTP preflight, ffmpeg decode,
ffprobe, curl) and the retry loop are collapsed into an oracle giving the
terminal classification `check_stream` reaches for a URL that misses the
cache: the working path (lines 211–214, 248–251, 267–270), the failed path
(lines 292–295, 307–310, 314–317) and the subprocess-timeout path
(lines 299–302).  What the model keeps exactly is the state discipline
around those paths: the cache lookup at entry that returns without
touching any counter (lines 144–145), and the increment-then-install
performed once for a fresh URL. -/

/-- Terminal classification of a fresh (uncached) validation. -/
inductive ProbeResult
  | ok
  | probeFail (reason : Line)
  | probeTimeout
deriving Repr, DecidableEq

/-- The four counters of the `Stats` class (lines 29–41). -/
structure Stats where
  working : Nat := 0
  failed : Nat := 0
  timeout : Nat := 0
  skipped : Nat := 0
deriving Repr, DecidableEq

/-- Sum of the four counters, as formed by `log_summary` (line 44). -/
def statsSum (s : Stats) : Nat := s.working + s.failed + s.timeout + s.skipped

/-- Module-level mutable state touched by `check_stream`: the result
cache (URL → (success, error)) and the statistics. -/
structure RunState where
  cache : List (Line × (Bool × Option Line)) := []
  stats : Stats := {}
deriving Repr, DecidableEq

/-- Model of Python `url in cache` / `cache[url]`. -/
def lookupCache (c : List (Line × (Bool × Option Line))) (url : Line) :
    Option (Bool × Option Line) :=
  match c with
  | [] => none
  | p :: ps => if p.1 == url then some p.2 else lookupCache ps url

/-- Model of `check_stream` for one URL: a cache hit returns the stored
pair and leaves the statistics untouched (lines 144–145); a miss runs the
probes (oracle), increments exactly one counter and installs the result
in the cache before returning it. -/
def check_stream (probe : Line → ProbeResult) (st : RunState) (url : Line) :
    (Bool × Option Line) × RunState :=
  match lookupCache st.cache url with
  | some r => (r, st)
  | none =>
    match probe url with
    | .ok =>
      ((true, none),
       ⟨(url, (true, none)) :: st.cache,
        { st.stats with working := st.stats.working + 1 }⟩)
    | .probeFail reason =>
      ((false, some reason),
       ⟨(url, (false, some reason)) :: st.cache,
        { st.stats with failed := st.stats.failed + 1 }⟩)
    | .probeTimeout =>
      ((false, some (S "ffmpeg timeout")),
       ⟨(url, (false, some (S "ffmpeg timeout"))) :: st.cache,
        { st.stats with timeout := st.stats.timeout + 1 }⟩)

/-- One validation call per channel URL, in sequence (the thread pool
serializes no two calls in general, but for counting, each completed call
applies `check_stream`'s state update once; the order is irrelevant to
the totals). -/
def runChecks (probe : Line → ProbeResult) : List Line → RunState → RunState
  | [], st => st
  | u :: us, st => runChecks probe us (check_stream probe st u).2

/-! ## Interleaving of two validators for one shared URL
(src/iptvcheck.py, `check_stream`)

For claim C1 the order of the cache lookup (line 144), the external
probes, and the cache installation matters.  `check_stream` acquires no
lock anywhere (the module lock of line 69 is used only in the skipped
handler of `process_playlist`, lines 415–422), so two worker threads
validating the same URL interleave these three phases freely.  The model
runs two threads, each executing lookup → probe → install for the same
URL, under an explicit schedule; `probeCount` counts external probe
invocations and `cached` is the shared cache slot for the URL. -/

/-- Phase of one validator thread. -/
inductive TPos
  | atLookup
  | atProbe
  | atInstall
  | doneT
deriving Repr, DecidableEq

/-- Shared and per-thread state for two validators of one URL. -/
structure CacheRace where
  cached : Option (Bool × Option Line) := none
  probeCount : Nat := 0
  pos1 : TPos := .atLookup
  pos2 : TPos := .atLookup
  res1 : Option (Bool × Option Line) := none
  res2 : Option (Bool × Option Line) := none
deriving Repr, DecidableEq

/-- One step of one thread (`tid = false` is thread 1): at lookup, a hit
returns the cached pair (line 144–145) and otherwise the thread proceeds
to the probes; the probe step runs the external probes once, reaching the
fixed outcome; the install step writes the cache (e.g. line 213) and
returns. -/
def threadStep (outcome : Bool × Option Line) (tid : Bool) (s : CacheRace) :
    CacheRace :=
  let pos := if tid then s.pos2 else s.pos1
  match pos with
  | .atLookup =>
    match s.cached with
    | some r =>
      if tid then { s with pos2 := .doneT, res2 := some r }
      else { s with pos1 := .doneT, res1 := some r }
    | none =>
      if tid then { s with pos2 := .atProbe } else { s with pos1 := .atProbe }
  | .atProbe =>
    if tid then { s with pos2 := .atInstall, probeCount := s.probeCount + 1 }
    else { s with pos1 := .atInstall, probeCount := s.probeCount + 1 }
  | .atInstall =>
    if tid then
      { s with pos2 := .doneT, cached := some outcome, res2 := some outcome }
    else
      { s with pos1 := .doneT, cached := some outcome, res1 := some outcome }
  | .doneT => s

/-- Run both threads under an explicit interleaving. -/
def runSched (outcome : Bool × Option Line) : List Bool → CacheRace → CacheRace
  | [], s => s
  | t :: ts, s => runSched outcome ts (threadStep outcome t s)

/-! ## Result aggregation (src/iptvcheck.py, `process_playlist`,
lines 380–433)

The `as_completed` loop consumes one settled event per channel: either the
task's `(success, error)` pair, or a collection-level `TimeoutError`
caught by the skipped handler.  The loop state is the output-playlist
buffer `updated_lines` (seeded with the header marker, line 380), the
`skipped` counter, and the side file opened in append mode
(lines 418–422). -/

/-- How one channel's wait at the collection loop settles. -/
inductive Settled
  | settledDone (success : Bool) (err : Option Line)
  | collectionTimeout
deriving Repr, DecidableEq

/-- State of the aggregation loop. -/
structure AggState where
  updatedLines : List Line
  skipped : Nat
  sideFile : List Line
deriving Repr, DecidableEq

/-- The lines written for one channel: info line, directive lines in
original order, URL — used both for the output playlist (lines 406–409)
and for the skipped side file (lines 419–422). -/
def channelBlock (c : Channel) : List Line :=
  c.extinf :: c.options ++ [c.url.getD []]

/-- One iteration of the `as_completed` loop: a successful result appends
the channel's block to the output buffer; a failed result only logs; a
collection-level timeout increments the skipped counter and appends the
channel's block to the side file. -/
def aggStep (st : AggState) (x : Channel × Settled) : AggState :=
  match x.2 with
  | .settledDone true _ => { st with updatedLines := st.updatedLines ++ channelBlock x.1 }
  | .settledDone false _ => st
  | .collectionTimeout =>
    { st with skipped := st.skipped + 1, sideFile := st.sideFile ++ channelBlock x.1 }

/-- The whole aggregation loop over the settled (channel, event) pairs in
completion order, starting from the header-marker buffer, an untouched
skipped counter, and an empty side file. -/
def aggregateRun (l : List (Channel × Settled)) : AggState :=
  l.foldl aggStep ⟨[S "#EXTM3U"], 0, []⟩

/-- Does a settled event append the channel to the output playlist? -/
def isSuccessEvent : Settled → Bool
  | .settledDone true _ => true
  | _ => false

/-- Is a settled event a collection-level timeout? -/
def isTimeoutEvent : Settled → Bool
  | .collectionTimeout => true
  | _ => false

/-! ## Claim C1: cache deduplication and atomicity -/

/-- C1 counterexample: `check_stream` serializes nothing between the cache
lookup and the cache installation, so under the interleaved schedule in
which both validator threads pass the lookup before either installs
(thread 1 and thread 2 alternating single steps), the external probes run
twice for the one shared URL — refuting "invoked at most once" and the
claimed serialization of check-then-insert. -/
theorem c1_counterexample :
    (runSched (true, none) [false, true, false, true, false, true] {}).probeCount = 2 ∧
    ¬ (runSched (true, none) [false, true, false, true, false, true] {}).probeCount ≤ 1 := by
  decide

/-- C1 amended: only when the two validations do not overlap — the second
thread takes its first step after the first thread has installed its
outcome — does the cache hit make the probes run exactly once, with both
channels receiving the same outcome.  (The lock of the source is never
taken in `check_stream`, so overlapping validators may each probe.) -/
theorem c1_sequential_dedup (o : Bool × Option Line) :
    (runSched o [false, false, false, true] {}).probeCount = 1 ∧
    (runSched o [false, false, false, true] {}).res1 = some o ∧
    (runSched o [false, false, false, true] {}).res2 = some o :=
  ⟨rfl, rfl, rfl⟩

/-! ## Claim C2: outcome counters versus channel count -/

/-- Helper: starting from a state whose cache misses every URL of a
duplicate-free URL list, running the checks adds exactly the number of
URLs to the counter total. -/
theorem runChecks_sum_aux (probe : Line → ProbeResult) :
    ∀ (urls : List Line) (st : RunState),
      (∀ u ∈ urls, lookupCache st.cache u = none) → urls.Nodup →
      statsSum (runChecks probe urls st).stats = statsSum st.stats + urls.length := by
  intro urls
  induction urls with
  | nil => intro st _ _; simp [runChecks]
  | cons u us ih =>
    intro st hmiss hnd
    have hu : lookupCache st.cache u = none := hmiss u (by simp)
    have hnotmem : u ∉ us := (List.nodup_cons.mp hnd).1
    have hndus : us.Nodup := (List.nodup_cons.mp hnd).2
    have hstep : ∀ (r : Bool × Option Line), ∀ v ∈ us,
        lookupCache ((u, r) :: st.cache) v = none := by
      intro r v hv
      have hne : (u == v) = false := by
        rw [beq_eq_false_iff_ne]
        intro h
        exact hnotmem (h ▸ hv)
      simp [lookupCache, hne, hmiss v (by simp [hv])]
    cases hp : probe u <;>
      simp only [runChecks, check_stream, hu, hp] <;>
      rw [ih _ (hstep _)] <;>
      first
        | (simp [statsSum]; omega)
        | exact hndus

/-- C2 counterexample: two channels sharing one URL.  The first
validation increments `working`; the second returns the cached pair
without touching any counter (lines 144–145), so the four counters sum to
1 while 2 channels were processed — refuting "the four statistics
counters sum to the total number of channels processed". -/
theorem c2_counterexample :
    statsSum (runChecks (fun _ => ProbeResult.ok)
      [S "http://dup/a", S "http://dup/a"] {}).stats = 1 ∧
    ([S "http://dup/a", S "http://dup/a"] : List Line).length = 2 := by
  decide

/-- C2 amended: each channel still settles in exactly one classification,
but the counters count first-time validations only (a cache hit increments
nothing), so the four counters sum to the total channel count exactly when
the processed channels' URLs are pairwise distinct. -/
theorem c2_distinct_urls_sum (probe : Line → ProbeResult) (urls : List Line)
    (hnd : urls.Nodup) :
    statsSum (runChecks probe urls {}).stats = urls.length := by
  have h := runChecks_sum_aux probe urls {} (fun u _ => rfl) hnd
  simpa [statsSum] using h

/-- Witness for the amended C2 at two distinct URLs. -/
theorem c2_distinct_urls_sum_witness :
    statsSum (runChecks (fun _ => ProbeResult.ok)
      [S "http://a/1", S "http://b/2"] {}).stats = 2 := by
  have h := c2_distinct_urls_sum (fun _ => ProbeResult.ok)
    [S "http://a/1", S "http://b/2"] (by decide)
  simpa using h

/-! ## Claim C4: header attributes embedded in the info line -/

/-- C4: the extractor's info-line branch (lines 527–577) does implement
the quoted/space/comma attribute extraction — applied to the info line it
yields the User-Agent — but `process_playlist` hands the extractor only
`channel['options']` (line 392), and `parse_playlist` never places the
info line among the options (lines 118–130), so for a channel whose info
line embeds `user-agent="Foo/1.0"` the pipeline's extracted header
mapping is empty: the branch is unreachable from the pipeline and the
claimed entries are not produced for any channel. -/
theorem c4_extinf_attrs_not_extracted :
    (parseLines [S "#EXTINF:-1 user-agent=\"Foo/1.0\",Chan", S "http://x/s"]).map
        (fun c => extract_headers_from_options c.options) = [[]] ∧
    extract_headers_from_options [S "#EXTINF:-1 user-agent=\"Foo/1.0\",Chan"] =
      [(S "User-Agent", S "Foo/1.0")] := by
  decide

/-! ## Claim C5: the stream-headers directive -/

/-- C5: the stream-headers branch slices `option[43:]` although the
matched prefix `#KODIPROP:inputstream.adaptive.stream_headers=` is 46
characters long, so the first ampersand-delimited pair is processed with
the residue `rs=` glued in front: `User-Agent=Foo` becomes the bogus
header `Rs: User-Agent=Foo` instead of `User-Agent: Foo` (pairs after the
first ampersand are unaffected). -/
theorem c5_stream_headers_first_pair_mangled :
    extract_headers_from_options
      [S "#KODIPROP:inputstream.adaptive.stream_headers=User-Agent=Foo&Origin=Bar"] =
      [(S "Rs", S "User-Agent=Foo"), (S "Origin", S "Bar")] ∧
    extract_headers_from_options
      [S "#KODIPROP:inputstream.adaptive.stream_headers=User-Agent=Foo&Origin=Bar"] ≠
      [(S "User-Agent", S "Foo"), (S "Origin", S "Bar")] := by
  decide

/-! ## Claim C9: extraction is total and empty without header directives -/

/-- C9: header extraction is a total function (it returns a mapping for
every directive list; the embedding has no failure channel, matching the
source in which every branch only slices, splits and searches), and a
directive list none of whose entries carries header information — every
unparseable or header-free fragment contributes no assignment — yields
the empty mapping. -/
theorem c9_no_header_info_empty (opts : List Line)
    (h : ∀ o ∈ opts, headerContribs o = []) :
    extract_headers_from_options opts = [] := by
  have aux : ∀ (rest : List Line), (∀ o ∈ rest, headerContribs o = []) →
      List.foldl stepHeaders [] rest = [] := by
    intro rest
    induction rest with
    | nil => intro _; rfl
    | cons o os ih =>
      intro hh
      have h0 : headerContribs o = [] := hh o (by simp)
      simp only [List.foldl_cons, stepHeaders, h0, List.foldl_nil]
      exact ih fun x hx => hh x (by simp [hx])
  exact aux opts h

/-- Witness for C9 on a list of malformed and header-free directives. -/
theorem c9_witness :
    extract_headers_from_options
      [S "#EXTVLCOPT:", S "#KODIPROP:noequals", S "#EXTGRP:news", S "randomtext"] = [] :=
  c9_no_header_info_empty _ (by decide)

/-! ## Claim C6: failure-reason precedence -/

/-- C6: the final-attempt failure reason is the first match of the
diagnostic output against the substrings 403 Forbidden, 404 Not Found,
401 Unauthorized, Protocol not found, Connection refused, Unable to open
resource — in that precedence — with default "Stream does not work"; and
a request-layer exception message maps through the smaller ordered table
(no-connection-adapter, then timeout, then forbidden) with fallback
"Request error". -/
theorem c6_error_precedence (e : Line) :
    (pyIn (S "403 Forbidden") e = true →
      classify_stream_error e = S "Access forbidden (403)") ∧
    (pyIn (S "403 Forbidden") e = false → pyIn (S "404 Not Found") e = true →
      classify_stream_error e = S "Stream not found (404)") ∧
    (pyIn (S "403 Forbidden") e = false → pyIn (S "404 Not Found") e = false →
      pyIn (S "401 Unauthorized") e = true →
      classify_stream_error e = S "Authentication required (401)") ∧
    (pyIn (S "403 Forbidden") e = false → pyIn (S "404 Not Found") e = false →
      pyIn (S "401 Unauthorized") e = false →
      pyIn (S "Protocol not found") e = true →
      classify_stream_error e = S "Protocol not supported") ∧
    (pyIn (S "403 Forbidden") e = false → pyIn (S "404 Not Found") e = false →
      pyIn (S "401 Unauthorized") e = false →
      pyIn (S "Protocol not found") e = false →
      pyIn (S "Connection refused") e = true →
      classify_stream_error e = S "Connection refused") ∧
    (pyIn (S "403 Forbidden") e = false → pyIn (S "404 Not Found") e = false →
      pyIn (S "401 Unauthorized") e = false →
      pyIn (S "Protocol not found") e = false →
      pyIn (S "Connection refused") e = false →
      pyIn (S "Unable to open resource") e = true →
      classify_stream_error e = S "Unable to open resource") ∧
    (pyIn (S "403 Forbidden") e = false → pyIn (S "404 Not Found") e = false →
      pyIn (S "401 Unauthorized") e = false →
      pyIn (S "Protocol not found") e = false →
      pyIn (S "Connection refused") e = false →
      pyIn (S "Unable to open resource") e = false →
      classify_stream_error e = S "Stream does not work") ∧
    (pyIn (S "No connection adapters") e = true →
      simplify_error e = S "No connection!") ∧
    (pyIn (S "No connection adapters") e = false → pyIn (S "Timeout") e = true →
      simplify_error e = S "Request timeout") ∧
    (pyIn (S "No connection adapters") e = false → pyIn (S "Timeout") e = false →
      pyIn (S "403 Forbidden") e = true →
      simplify_error e = S "Access forbidden (403)") ∧
    (pyIn (S "No connection adapters") e = false → pyIn (S "Timeout") e = false →
      pyIn (S "403 Forbidden") e = false →
      simplify_error e = S "Request error") := by
  refine ⟨?_, ?_, ?_, ?_, ?_, ?_, ?_, ?_, ?_, ?_, ?_⟩ <;>
    intros <;>
    simp_all [classify_stream_error, simplify_error, errorMapScan, errorMap]

/-- Witness for C6: a diagnostic containing 404 but not 403 classifies as
"Stream not found (404)". -/
theorem c6_witness :
    classify_stream_error (S "HTTP error 404 Not Found") = S "Stream not found (404)" :=
  (c6_error_precedence (S "HTTP error 404 Not Found")).2.1 (by decide) (by decide)

/-! ## Claims C7 and C8: the aggregation loop -/

/-- Helper: closed form of the aggregation fold from any starting state:
successful channels extend the output buffer in completion order, each
collection-level timeout bumps the skipped counter and appends the
channel's block to the side file. -/
theorem aggStep_foldl (l : List (Channel × Settled)) :
    ∀ st : AggState,
      l.foldl aggStep st =
        ⟨st.updatedLines ++
           ((l.filter fun x => isSuccessEvent x.2).map fun x => channelBlock x.1).flatten,
         st.skipped + (l.filter fun x => isTimeoutEvent x.2).length,
         st.sideFile ++
           ((l.filter fun x => isTimeoutEvent x.2).map fun x => channelBlock x.1).flatten⟩ := by
  induction l with
  | nil => intro st; simp
  | cons x xs ih =>
    intro st
    obtain ⟨ch, ev⟩ := x
    cases ev with
    | settledDone succ err =>
      cases succ <;>
        simp [aggStep, isSuccessEvent, isTimeoutEvent, ih, List.append_assoc]
    | collectionTimeout =>
      simp [aggStep, isSuccessEvent, isTimeoutEvent, ih, List.append_assoc]
      omega

/-- C7: in any completed run, every channel whose wait settled as a
collection-level timeout is counted in the skipped counter (one increment
per such channel, a classification distinct from the subprocess-timeout
counter of `check_stream`), contributes its original lines — info line,
directives, URL — as one contiguous record, in order, to the side file,
and contributes nothing to the output playlist, which contains exactly the
header marker followed by the blocks of successfully settled channels. -/
theorem c7_collection_timeout_skipped (l : List (Channel × Settled)) :
    (aggregateRun l).skipped = (l.filter fun x => isTimeoutEvent x.2).length ∧
    (aggregateRun l).sideFile =
      ((l.filter fun x => isTimeoutEvent x.2).map fun x => channelBlock x.1).flatten ∧
    (aggregateRun l).updatedLines =
      S "#EXTM3U" ::
        ((l.filter fun x => isSuccessEvent x.2).map fun x => channelBlock x.1).flatten := by
  rw [aggregateRun, aggStep_foldl]
  simp

/-- C8: the output playlist begins with the header marker line, and for
every channel settled successfully the output contains that channel's
contiguous block: the info line, then the directive lines verbatim in
their original order, then the URL. -/
theorem c8_output_header_and_blocks (l : List (Channel × Settled)) :
    (aggregateRun l).updatedLines.head? = some (S "#EXTM3U") ∧
    ∀ ch ev, (ch, ev) ∈ l → isSuccessEvent ev = true →
      channelBlock ch <:+: (aggregateRun l).updatedLines := by
  rw [aggregateRun, aggStep_foldl]
  constructor
  · simp
  · intro ch ev hmem hsucc
    have hblock : channelBlock ch ∈
        (l.filter fun x => isSuccessEvent x.2).map fun x => channelBlock x.1 :=
      List.mem_map_of_mem _ (List.mem_filter.mpr ⟨hmem, hsucc⟩)
    have hinf : channelBlock ch <:+:
        ((l.filter fun x => isSuccessEvent x.2).map fun x => channelBlock x.1).flatten :=
      List.infix_of_mem_flatten hblock
    simpa using hinf.trans
      (List.suffix_cons (S "#EXTM3U") _).isInfix

/-- Witness for C8 at a one-channel run with a directive line. -/
theorem c8_witness :
    channelBlock ⟨S "#EXTINF:-1,A", some (S "http://x/a"), [S "#EXTGRP:g"]⟩ <:+:
      (aggregateRun [(⟨S "#EXTINF:-1,A", some (S "http://x/a"), [S "#EXTGRP:g"]⟩,
        Settled.settledDone true none)]).updatedLines :=
  (c8_output_header_and_blocks _).2 _ (Settled.settledDone true none) (by simp) (by decide)

/-! ## Claims C3 and C10: the parser -/

/-- Specification-side test (this one is written from the claim's
wording, to be compared with the parser): does the segment of lines
following an info-marker line contain a recognized-URL line before the
next info-marker line or the end of input? -/
def segmentHasUrl : List Line → Bool
  | [] => false
  | l :: ls =>
    match classifyLine (stripC l) with
    | .extinfLine => false
    | .urlLine => true
    | .optLine => segmentHasUrl ls
    | .skipLine => segmentHasUrl ls

/-- Specification-side count (written from the claim's wording): the
number of info-marker lines eventually followed by a recognized-URL line
before the next info-marker line or end of input. -/
def countQualifying : List Line → Nat
  | [] => 0
  | l :: ls =>
    match classifyLine (stripC l) with
    | .extinfLine => (if segmentHasUrl ls then 1 else 0) + countQualifying ls
    | .urlLine => countQualifying ls
    | .optLine => countQualifying ls
    | .skipLine => countQualifying ls

/-- Helper: a line classified as a URL satisfies the URL-scheme test. -/
theorem classify_url_isUrl {s : Line} (h : classifyLine s = .urlLine) :
    isUrlLine s = true := by
  unfold classifyLine at h
  split_ifs at h
  simp_all

/-- Helper: a URL-scheme line is nonempty. -/
theorem isUrl_not_empty {s : Line} (h : isUrlLine s = true) : s.isEmpty = false := by
  cases s with
  | nil => exact absurd h (by decide)
  | cons c t => rfl

/-- Helper: a record whose url field is unset is filtered out. -/
theorem keepChannel_mk_none (e : Line) (o : List Line) :
    keepChannel ⟨e, none, o⟩ = false := rfl

/-- Helper: a record whose url field is set is kept iff the URL is
nonempty. -/
theorem keepChannel_mk_some (e u : Line) (o : List Line) :
    keepChannel ⟨e, some u, o⟩ = !u.isEmpty := rfl

/-- Helper: appending a directive does not change whether a record is
kept. -/
theorem keepChannel_set_options (c : Channel) (o : List Line) :
    keepChannel ⟨c.extinf, c.url, o⟩ = keepChannel c := rfl

/-- Contribution of the currently open channel record to the final
(filtered) channel count, given the lines still to be read. -/
def curContrib (cur : Option Channel) (ls : List Line) : Nat :=
  match cur with
  | none => 0
  | some c => if keepChannel c || segmentHasUrl ls then 1 else 0

/-- Helper: the filtered output of the parser loop, from any loop state,
has exactly one channel for the open record when it ends up with a URL,
plus one channel per qualifying info-marker line of the remaining
input. -/
theorem parseAux_filter_length (ls : List Line) :
    ∀ cur, ((parseLinesAux ls cur).filter keepChannel).length =
      curContrib cur ls + countQualifying ls := by
  induction ls with
  | nil =>
    intro cur
    cases cur with
    | none => simp [parseLinesAux, curContrib, countQualifying]
    | some c =>
      cases hk : keepChannel c <;>
        simp [parseLinesAux, curContrib, countQualifying, segmentHasUrl, hk,
          List.filter_cons]
  | cons l ls ih =>
    intro cur
    cases hcl : classifyLine (stripC l) with
    | skipLine =>
      cases cur <;>
        simp [parseLinesAux, hcl, countQualifying, segmentHasUrl, curContrib, ih]
    | extinfLine =>
      cases cur with
      | none =>
        simp [parseLinesAux, hcl, countQualifying, segmentHasUrl, curContrib, ih,
          keepChannel_mk_none]
      | some c =>
        cases hk : keepChannel c <;> cases hs : segmentHasUrl ls <;>
          simp [parseLinesAux, hcl, countQualifying, segmentHasUrl, curContrib, ih,
            keepChannel_mk_none, hk, hs, List.filter_cons] <;>
          omega
    | optLine =>
      cases cur with
      | none =>
        simp [parseLinesAux, hcl, countQualifying, segmentHasUrl, curContrib, ih]
      | some c =>
        simp [parseLinesAux, hcl, countQualifying, segmentHasUrl, curContrib, ih,
          keepChannel_set_options]
    | urlLine =>
      cases cur with
      | none =>
        simp [parseLinesAux, hcl, countQualifying, segmentHasUrl, curContrib, ih]
      | some c =>
        have hne := isUrl_not_empty (classify_url_isUrl hcl)
        simp [parseLinesAux, hcl, countQualifying, segmentHasUrl, curContrib, ih,
          keepChannel_mk_some, hne]

/-- C3: the parser returns exactly one channel record per info-marker
line that is eventually followed by a recognized-URL-scheme line before
the next info-marker line or the end of input, and every returned record
carries a URL (a channel that never received a URL line is filtered
out). -/
theorem c3_parser_record_count (lines : List Line) :
    (parseLines lines).length = countQualifying lines ∧
    ∀ c ∈ parseLines lines, c.url.isSome = true := by
  constructor
  · have h := parseAux_filter_length lines none
    simpa [parseLines, curContrib] using h
  · intro c hc
    have hk : keepChannel c = true := List.of_mem_filter hc
    cases hcu : c.url with
    | none => simp [keepChannel, hcu] at hk
    | some u => rfl

/-- Witness for C3: the record parsed from a two-line playlist carries
its URL. -/
theorem c3_witness :
    (⟨S "#EXTINF:-1,A", some (S "http://x/a"), []⟩ : Channel).url.isSome = true :=
  (c3_parser_record_count [S "#EXTINF:-1,A", S "http://x/a"]).2 _ (by decide)

/-- Helper: reading only URL lines into an open channel record rewrites
its `url` field each time, so the last URL line wins and no further
records are produced. -/
theorem parseAux_last_url (u : Line) (hu : classifyLine (stripC u) = .urlLine) :
    ∀ (us : List Line) (c : Channel), (∀ x ∈ us, classifyLine (stripC x) = .urlLine) →
      parseLinesAux (us ++ [u]) (some c) =
        [⟨c.extinf, some (stripC u), c.options⟩] := by
  intro us
  induction us with
  | nil =>
    intro c _
    simp [parseLinesAux, hu]
  | cons x xs ih =>
    intro c hx
    have hcx : classifyLine (stripC x) = .urlLine := hx x (by simp)
    simp only [List.cons_append, parseLinesAux, hcx]
    exact ih _ fun y hy => hx y (by simp [hy])

/-- C10: when two or more URL-scheme lines follow an info-marker line
before the next info-marker line, each later URL line overwrites the
earlier one (it neither is ignored nor opens a new channel), so the
single parsed record's url equals the last such line. -/
theorem c10_last_url_wins (e u : Line) (us : List Line)
    (he : classifyLine (stripC e) = .extinfLine)
    (hus : ∀ x ∈ us, classifyLine (stripC x) = .urlLine)
    (hu : classifyLine (stripC u) = .urlLine) :
    parseLines (e :: (us ++ [u])) = [⟨stripC e, some (stripC u), []⟩] := by
  have hne := isUrl_not_empty (classify_url_isUrl hu)
  unfold parseLines
  simp only [parseLinesAux, he, Option.toList_none, List.nil_append]
  rw [parseAux_last_url u hu us _ hus]
  simp [keepChannel, hne]

/-- Witness for C10: with two URL lines after one info line, the parsed
record carries the second URL. -/
theorem c10_witness :
    parseLines [S "#EXTINF:-1,A", S "http://x/1", S "http://x/2"] =
      [⟨S "#EXTINF:-1,A", some (S "http://x/2"), []⟩] := by
  have h := c10_last_url_wins (S "#EXTINF:-1,A") (S "http://x/2") [S "http://x/1"]
    (by decide) (by decide) (by decide)
  simpa using h

end IPTVCheck
